import Mathlib

/-!
Verification development for the `approve-pr-creation-from-issue` GitHub
action (`src/index.js`).  The JavaScript source is shallowly embedded:
pure string manipulation becomes functions on `String` / `List Char`,
and the network-dependent verification pipeline (`PRApproval.check`,
`PRApproval._closePR`, `PRApproval._isContributor`, `run`) becomes pure
functions over an explicit `World` of API responses.  Matching of the
reference regular expression is rendered as a deterministic scanner:
every repetition class in `RE_COMMENT_URL` (`[^/]+`, `\d+`) is followed
by a literal its members can never contain, so the greedy maximal-run
parse below coincides with the backtracking engine on the URL itself.
-/

/-! ### Character-list helpers -/

/-- Strips `pre` from the front of `s`, returning the remainder.
Used to render literal fragments of the regular expression built in
`extractCommentURL` (src/index.js line 25); the source escapes the
template fragments with `escapeRegExp` precisely so that they match
literally, which is what this function does. -/
def stripPrefixCL : List Char → List Char → Option (List Char)
  | [], s => some s
  | _ :: _, [] => none
  | p :: ps, c :: cs => if c = p then stripPrefixCL ps cs else none

/-- Index of the first occurrence of `sep` inside `s` (as `sep.isPrefixOf (s.drop i)`). -/
def findSubIdx (sep : List Char) : List Char → Option Nat
  | [] => if sep.isEmpty then some 0 else none
  | c :: rest =>
    if sep.isPrefixOf (c :: rest) then some 0
    else (findSubIdx sep rest).map (· + 1)

/-- First two fields of the JavaScript `s.split(sep)`: the text before the
first occurrence of `sep`, and the text between the first and second
occurrences (or to the end).  `none` in the second component models
`parts[1] === undefined` when `sep` does not occur (src/index.js line 23). -/
def splitParts (sep s : List Char) : List Char × Option (List Char) :=
  match findSubIdx sep s with
  | none => (s, none)
  | some i =>
    let rest := s.drop (i + sep.length)
    match findSubIdx sep rest with
    | none => (s.take i, some rest)
    | some j => (s.take i, some (rest.take j))

/-- The character class `[^/]` of `RE_COMMENT_URL` (src/index.js line 7). -/
def notSlash (c : Char) : Bool := c != '/'

/-- JavaScript `s.toLowerCase()` on the ASCII logins and repository names
this action handles: lowercase each character.  (`String.toLower` computes
the same string but its `mapAux` does not reduce definitionally, so the
character-list form is used throughout.) -/
def lowerStr (s : String) : String := (s.toList.map Char.toLower).asString

/-! ### The comment-URL pattern (src/index.js line 7)

`RE_COMMENT_URL = /^https:\/\/github\.com\/([^/]+)\/([^/]+)\/issues\/(\d+)#issuecomment-(\d+)$/`
-/

def HTTPS_GITHUB : List Char := "https://github.com/".toList

def ISSUES_SEG : List Char := "issues/".toList

def COMMENT_ANCHOR : List Char := "#issuecomment-".toList

def URL_PLACEHOLDER : List Char := "{url}".toList

/-- The four capture groups of `RE_COMMENT_URL`. -/
structure URLParts where
  uOwner : List Char
  uRepo : List Char
  uIssue : List Char
  uComment : List Char
deriving DecidableEq

/-- Matches the unanchored comment-URL pattern (the body of
`RE_COMMENT_URL` with `^`/`$` removed, as built on src/index.js line 24)
at the head of `s`.  Returns the capture groups together with the input
remaining after the final digit run.  Each `[^/]+`/`\d+` run is taken
maximally, which is forced by the literal that follows it inside the
pattern (`/`, `#`), so this scanner agrees with the regex engine on what
the URL group can span. -/
def matchURL (s : List Char) : Option (URLParts × List Char) :=
  match stripPrefixCL HTTPS_GITHUB s with
  | none => none
  | some s1 =>
    let o := s1.takeWhile notSlash
    if o.isEmpty then none else
    match stripPrefixCL ['/'] (s1.dropWhile notSlash) with
    | none => none
    | some s2 =>
      let r := s2.takeWhile notSlash
      if r.isEmpty then none else
      match stripPrefixCL ('/' :: ISSUES_SEG) (s2.dropWhile notSlash) with
      | none => none
      | some s4 =>
        let i := s4.takeWhile Char.isDigit
        if i.isEmpty then none else
        match stripPrefixCL COMMENT_ANCHOR (s4.dropWhile Char.isDigit) with
        | none => none
        | some s5 =>
          let c := s5.takeWhile Char.isDigit
          if c.isEmpty then none
          else some (⟨o, r, i, c⟩, s5.dropWhile Char.isDigit)

/-- The text spanned by the URL capture group (`match[1]` on
src/index.js line 32), reassembled from the capture groups. -/
def reassembleURL (u : URLParts) : List Char :=
  HTTPS_GITHUB ++ u.uOwner ++ '/' :: u.uRepo ++ '/' :: ISSUES_SEG ++ u.uIssue ++ COMMENT_ANCHOR ++ u.uComment

/-- The anchored pattern `RE_COMMENT_URL` (src/index.js line 33): the whole
input must be consumed (`^ ... $`). -/
def parseCommentURL (s : List Char) : Option URLParts :=
  match matchURL s with
  | some (u, []) => some u
  | _ => none

/-- One attempt of the search regex
`escapeRegExp(parts[0]) (url-pattern) escapeRegExp(parts[1])`
(src/index.js line 25) at the current position: literal prefix, then the
URL pattern, then the literal suffix immediately after it. -/
def tryMatchAt (parts0 parts1 s : List Char) : Option URLParts :=
  match stripPrefixCL parts0 s with
  | none => none
  | some s1 =>
    match matchURL s1 with
    | none => none
    | some (u, rest) =>
      match stripPrefixCL parts1 rest with
      | some _ => some u
      | none => none

/-- The unanchored search `prBody.match(re)` (src/index.js line 26):
leftmost position at which the template-with-URL pattern matches. -/
def findFirstMatch (parts0 parts1 : List Char) : List Char → Option URLParts
  | [] => tryMatchAt parts0 parts1 []
  | c :: rest =>
    match tryMatchAt parts0 parts1 (c :: rest) with
    | some u => some u
    | none => findFirstMatch parts0 parts1 rest

/-! ### Reference extraction (src/index.js lines 21-53) -/

/-- The errors thrown by `extractCommentURL`.  `noPlaceholder` models the
`TypeError` raised by `escapeRegExp(undefined)` when the reference
template contains no `{url}` placeholder (`parts[1]` is `undefined`);
`validateConfig` rules this out before `check` runs. -/
inductive ExtractErr where
  | noPlaceholder
  | notFound
  | malformedURL
  | crossRepo (expectedOwner expectedRepo actualOwner actualRepo : String)
deriving DecidableEq

/-- The parsed approval reference returned by `extractCommentURL`
(src/index.js lines 46-52). -/
structure ApprovalRef where
  owner : String
  repo : String
  issue : String
  commentId : String
  commentUrl : String
deriving DecidableEq

/-- Embedding of `extractCommentURL(prBody, referenceStr, owner, repo)`
(src/index.js lines 21-53).  Phase 1 splits the template on `{url}` and
searches the body for literal-prefix, URL pattern, literal-suffix; phase 2
re-parses the captured URL against the anchored `RE_COMMENT_URL`; phase 3
lowercases the owner/repo and compares them with those of the pull request. -/
def extractCommentURL (prBody referenceStr owner repo : String) :
    Except ExtractErr ApprovalRef :=
  match splitParts URL_PLACEHOLDER referenceStr.toList with
  | (_, none) => .error .noPlaceholder
  | (p0, some p1) =>
    match findFirstMatch p0 p1 prBody.toList with
    | none => .error .notFound
    | some u =>
      let commentUrl := reassembleURL u
      match parseCommentURL commentUrl with
      | none => .error .malformedURL
      | some v =>
        let pOwner := lowerStr v.uOwner.asString
        let pRepo := lowerStr v.uRepo.asString
        if pOwner = owner && pRepo = repo then
          .ok ⟨pOwner, pRepo, v.uIssue.asString, v.uComment.asString, commentUrl.asString⟩
        else .error (.crossRepo owner repo v.uOwner.asString v.uRepo.asString)

/-- The `err.message` texts thrown on src/index.js lines 28, 35, 41-43;
`check` reports them through `core.setFailed` (line 187). -/
def extractErrMsg : ExtractErr → String
  | .noPlaceholder => "Cannot read properties of undefined"
  | .notFound => "No approval comment URL found in the PR body."
  | .malformedURL => "The referenced URL is not the correct GitHub issue comment URL."
  | .crossRepo o r ao ar =>
    "The referenced comment URL should belong to " ++ o ++ "/" ++ r ++ ", not " ++ ao ++ "/" ++ ar ++ "."

/-! ### String utilities used by the verifier -/

/-- JavaScript `a.includes(b)`: substring containment. -/
def containsSubstr (s sub : String) : Bool := (findSubIdx sub.toList s.toList).isSome

/-- JavaScript `s.replace(pat, rep)` with a string pattern: replaces the
first occurrence only (src/index.js line 217). -/
def replaceFirst (s pat rep : String) : String :=
  match findSubIdx pat.toList s.toList with
  | none => s
  | some i => (s.toList.take i ++ rep.toList ++ s.toList.drop (i + pat.length)).asString

/-! ### Configuration (src/index.js lines 8-15, 55-67) -/

structure Config where
  approvalStr : String
  referenceStr : String
  autocloseMsg : String
  excludeContribs : Bool
deriving DecidableEq

/-- Embeds `DEFAULT_CONFIG` (src/index.js lines 8-14). -/
def DEFAULT_CONFIG : Config :=
  { approvalStr := "{user} PR approved"
  , referenceStr := "Approval: {url}"
  , autocloseMsg := "This PR was automatically closed because the reference to approval (issue) could not be found. Please open an issue first, get approval from the maintainer, and reference the approval comment URL in your PR body in the format `Approval: {url}`."
  , excludeContribs := false }

/-- Embeds `validateConfig` (src/index.js lines 55-67), returning the
`core.setFailed` message of the first failing test, if any. -/
def validateConfigMsg (cfg : Config) : Option String :=
  if !containsSubstr cfg.referenceStr "{url}" then
    some "`reference_str` must contain the `{url}` placeholder."
  else if !containsSubstr cfg.approvalStr "{user}" then
    some "`approval_str` must contain the `{user}` placeholder."
  else none

def validateConfig (cfg : Config) : Bool := (validateConfigMsg cfg).isNone

/-- Embeds `ALLOWED_PERMISSIONS`, the set holding write and admin (src/index.js line 15). -/
def ALLOWED_PERMISSIONS (p : String) : Bool := p == "write" || p == "admin"

/-! ### API response model

`PRApproval._request` (src/index.js lines 92-110) returns
`{ status, ok, data, headers }`; a transport failure throws instead.  A
GET outcome is therefore `Except Unit (Resp α)`: `.error ()` is the thrown
transport error, `.ok r` the returned status/data pair. -/

structure Resp (α : Type) where
  status : Nat
  data : Option α

/-- Fields of the fetched comment used by `check`
(src/index.js lines 207, 218, 223). -/
structure CommentData where
  body : Option String
  userLogin : Option String

structure IssueData where
  state : String

structure PermData where
  permission : String

/-- The API responses one invocation of `check` can observe: the outcome
of `_isContributor` (a Bool, or a thrown error), and the three GET
responses for the comment, its parent issue, and the approver permission. -/
structure World where
  contribResult : Except Unit Bool
  commentResp : Except Unit (Resp CommentData)
  issueResp : Except Unit (Resp IssueData)
  permResp : Except Unit (Resp PermData)

/-- Terminal result of one `check` invocation.  `closed reason` means
`_closePR(reason)` was invoked (post the autoclose comment, then PATCH the
pull request closed); `failed reason` means `core.setFailed(reason)` with
the pull request left untouched; `skipped` is the past-contributor early
return; `approved` is the fall-through success at src/index.js line 239. -/
inductive Outcome where
  | skipped
  | closed (reason : String)
  | failed (reason : String)
  | approved
deriving DecidableEq

/-! ### The verification pipeline (src/index.js lines 165-240),
decomposed into its sequential stages. -/

/-- Approver permission gate (src/index.js lines 227-237). -/
def permStage (approver : String) (w : World) : Outcome :=
  match w.permResp with
  | .error _ => .failed "error checking approver permissions"
  | .ok r =>
    match r.data with
    | none => .failed ("error checking permissions for @" ++ approver ++ " (status " ++ toString r.status ++ ").")
    | some d =>
      if r.status ≠ 200 then
        .failed ("error checking permissions for @" ++ approver ++ " (status " ++ toString r.status ++ ").")
      else if ALLOWED_PERMISSIONS d.permission then .approved
      else .closed ("@" ++ approver ++ " does not have write or admin access to this repository.")

/-- Approver identification (src/index.js lines 223-226): `comment.user?.login`
must be present and non-empty (`!approver` is true for `undefined` and `""`). -/
def approverStage (comment : CommentData) (w : World) : Outcome :=
  match comment.userLogin with
  | none => .failed "The referenced approval comment does not have a valid author."
  | some approver =>
    if approver = "" then .failed "The referenced approval comment does not have a valid author."
    else permStage approver w

/-- Approval-phrase check (src/index.js lines 216-220): substitute the
author into the template and require substring containment in the comment
body (`comment.body?.includes(expected)`; a missing body does not match). -/
def phraseStage (prUser : String) (cfg : Config) (comment : CommentData) (w : World) : Outcome :=
  let expected := replaceFirst cfg.approvalStr "{user}" ("@" ++ prUser)
  if (comment.body.map (fun b => containsSubstr b expected)).getD false then
    approverStage comment w
  else
    .closed ("Approval string \"" ++ expected ++ "\" was not found in the referenced comment.")

/-- Parent-issue state check (src/index.js lines 205-214): a non-200 status
or missing payload fails the run; a non-open state closes the pull request. -/
def issueStage (prUser : String) (cfg : Config) (comment : CommentData) (w : World) : Outcome :=
  match w.issueResp with
  | .error _ => .failed "error checking issue state"
  | .ok r =>
    match r.data with
    | none => .failed ("error fetching issue (status " ++ toString r.status ++ ").")
    | some issue =>
      if r.status ≠ 200 then .failed ("error fetching issue (status " ++ toString r.status ++ ").")
      else if issue.state ≠ "open" then .closed "The referenced PR approval comment issue is closed."
      else phraseStage prUser cfg comment w

/-- Comment fetch (src/index.js lines 190-203): `status === 404 || !data`
closes the pull request, any other non-200 fails the run.  The source
tests `status === 404 || !data` first, so a missing payload closes
regardless of status; the match on `data` here merely lets the 200 branch
bind the payload. -/
def commentStage (prUser : String) (cfg : Config) (w : World) : Outcome :=
  match w.commentResp with
  | .error _ => .failed "error fetching comment"
  | .ok r =>
    match r.data with
    | none => .closed "The referenced PR approval comment was not found."
    | some comment =>
      if r.status = 404 then .closed "The referenced PR approval comment was not found."
      else if r.status ≠ 200 then
        .failed ("GitHub API returned status " ++ toString r.status ++ " while fetching comment.")
      else issueStage prUser cfg comment w

/-- Embeds `PRApproval.check` (src/index.js lines 165-240).  Note that every
extraction failure is reported through `core.setFailed(err.message)`
(line 187) — that path never calls `_closePR`. -/
def check (owner repo prUser prBody : String) (cfg : Config) (w : World) : Outcome :=
  let rest :=
    match extractCommentURL prBody cfg.referenceStr owner repo with
    | .error e => Outcome.failed (extractErrMsg e)
    | .ok _ => commentStage prUser cfg w
  if cfg.excludeContribs then
    match w.contribResult with
    | .error _ => .failed "error checking contributors"
    | .ok true => .skipped
    | .ok false => rest
  else rest

/-! ### Contributor gate (src/index.js lines 145-163) -/

structure Contributor where
  login : Option String

/-- One response of `GET /contributors?per_page=100&page=N`: status, the
parsed JSON array (absent on parse failure), and the `link` header. -/
structure ContribPage where
  status : Nat
  data : Option (List Contributor)
  link : Option String

/-- The pagination signal (src/index.js line 158): the loop continues only
when the link header (read as the empty string when absent) contains the
substring `rel="next"` — a missing or malformed `link` header never
contains the marker and ends the loop. -/
def hasNextLink (p : ContribPage) : Bool :=
  containsSubstr (p.link.getD "") "rel=\"next\""

/-- The per-page scan (src/index.js line 155):
`data.some(c => c.login?.toLowerCase() === this.prUser)`. -/
def pageMatch (prUser : String) (p : ContribPage) : Bool :=
  (p.data.getD []).any (fun c => c.login.map lowerStr == some prUser)

/-- Success condition of one page response (src/index.js line 152 negated):
status 200 with a parsed payload. -/
def pageGood (p : ContribPage) : Bool := p.status == 200 && p.data.isSome

/-- A page on which the loop neither returns nor stops: good, matchless,
and advertising a next page. -/
def advancingPage (prUser : String) (p : ContribPage) : Bool :=
  pageGood p && !pageMatch prUser p && hasNextLink p

/-- A page response at which the loop stops (by returning true or false). -/
def stopsPage (prUser : String) (p : ContribPage) : Bool :=
  !pageGood p || pageMatch prUser p || !hasNextLink p

/-- Embeds `PRApproval._isContributor` (src/index.js lines 145-163) over the
finite sequence of page responses the loop consumes, in request order.
Exhausting the sequence corresponds to no further pages being available:
the loop returns false. -/
def isContributor (prUser : String) : List ContribPage → Bool
  | [] => false
  | p :: rest =>
    if !pageGood p then false
    else if pageMatch prUser p then true
    else if !hasNextLink p then false
    else isContributor prUser rest

/-- Embeds `PRApproval._isContributor` against a server that answers every page
request (`resp n` is the response to `page=n`), with explicit fuel: `none`
means the loop is still running after `fuel` iterations.  This is the
model used to study termination of the `while (true)` loop. -/
def isContributorPages (resp : Nat → ContribPage) (prUser : String) : Nat → Nat → Option Bool
  | _, 0 => none
  | page, fuel + 1 =>
    let p := resp page
    if !pageGood p then some false
    else if pageMatch prUser p then some true
    else if !hasNextLink p then some false
    else isContributorPages resp prUser (page + 1) fuel

/-! ### Remediation (src/index.js lines 124-143) -/

/-- The ok and status fields of a `_send` response. -/
structure SendRes where
  ok : Bool
  status : Nat

/-- Observable effects of one `_closePR` call: the body of the attempted
explanatory comment POST, whether the PATCH closing the pull request was
issued, whether the call raised to its caller, and the `core.info` log
lines in order. -/
structure CloseTrace where
  postBody : String
  closeAttempted : Bool
  raised : Bool
  logs : List String

/-- Embeds `PRApproval._closePR(reason)` (src/index.js lines 125-143).  Both
`_send` calls sit inside one `try`: if the comment POST throws
(`postRes = .error`), the catch runs and the close PATCH is never issued;
if the POST returns (any status), the PATCH is issued next.  The catch
swallows every throw, so the call never raises. -/
def closePR (prNumber : Nat) (autocloseMsg reason : String)
    (postRes closeRes : Except Unit SendRes) : CloseTrace :=
  let body := autocloseMsg ++ "\n\n**Reason:** " ++ reason
  match postRes with
  | .error _ =>
    { postBody := body, closeAttempted := false, raised := false
    , logs := [reason, "error closing PR"] }
  | .ok r =>
    let postLogs := if !r.ok then ["errror posting auto-close comment (status " ++ toString r.status ++ ")."] else []
    match closeRes with
    | .error _ =>
      { postBody := body, closeAttempted := true, raised := false
      , logs := [reason] ++ postLogs ++ ["error closing PR"] }
    | .ok r2 =>
      let closeLogs := if !r2.ok then ["errror closing PR #" ++ toString prNumber ++ " (status " ++ toString r2.status ++ ")."] else []
      { postBody := body, closeAttempted := true, raised := false
      , logs := [reason] ++ postLogs ++ closeLogs }

/-! ### The orchestrator `run` (src/index.js lines 245-287) -/

/-- The pull-request fields `run` reads from the event payload. -/
structure PREvent where
  baseOwnerLogin : String
  baseRepoName : String
  number : Nat
  userLogin : String
  body : Option String

/-- The action inputs `run` reads through `core.getInput`; `""` is the
unset value.  `force_validate_owner_prs` is declared by the action and
documented in the README, but `run` never reads it — it is an (unused)
parameter here so that independence from it is expressible. -/
structure Inputs where
  github_token : String
  approval_str : String
  reference_str : String
  pr_autoclose_message : String
  exclude_past_contributors : String
  force_validate_owner_prs : String

/-- Terminal result of `run`: a `core.setFailed` before any verification,
the owner short-circuit (src/index.js lines 262-266), or the outcome of
`check`. -/
inductive RunOutcome where
  | failedSetup (msg : String)
  | skippedOwner
  | checked (o : Outcome)
deriving DecidableEq

/-- Embeds the default fallback of `core.getInput` reads (src/index.js lines 269-271). -/
def orDefault (s d : String) : String := if s = "" then d else s

/-- Embeds `run` (src/index.js lines 245-287).  The absent/unparseable event file
and the missing `pull_request` object are collapsed into `event = none`.
The owner short-circuit compares lowercased logins and consults no input. -/
def run (event : Option PREvent) (inputs : Inputs) (w : World) : RunOutcome :=
  match event with
  | none => .failedSetup "This action must be triggered by the `pull_request` event."
  | some pr =>
    if inputs.github_token = "" then .failedSetup "github_token input is required."
    else if lowerStr pr.baseOwnerLogin = lowerStr pr.userLogin then .skippedOwner
    else
      let cfg : Config :=
        { approvalStr := orDefault inputs.approval_str DEFAULT_CONFIG.approvalStr
        , referenceStr := orDefault inputs.reference_str DEFAULT_CONFIG.referenceStr
        , autocloseMsg := orDefault inputs.pr_autoclose_message DEFAULT_CONFIG.autocloseMsg
        , excludeContribs := inputs.exclude_past_contributors == "true" }
      match validateConfigMsg cfg with
      | some m => .failedSetup m
      | none =>
        .checked (check (lowerStr pr.baseOwnerLogin) (lowerStr pr.baseRepoName)
          (lowerStr pr.userLogin) (pr.body.getD "") cfg w)

/-! ### Concrete scenario values (spec section 8, scenarios A-D) -/

/-- Scenario B body: a well-formed reference to comment 9 on issue 5. -/
def scenarioBodyB : String := "Approval: https://github.com/acme/widgets/issues/5#issuecomment-9"

/-- Scenario A body: the URL lacks the `/issues/42` segment. -/
def scenarioBodyA : String := "Approval: https://github.com/acme/widgets#issuecomment-9"

def goodComment : CommentData := { body := some "@bob PR approved", userLogin := some "carol" }

def okWorld : World :=
  { contribResult := .ok false
  , commentResp := .ok ⟨200, some goodComment⟩
  , issueResp := .ok ⟨200, some ⟨"open"⟩⟩
  , permResp := .ok ⟨200, some ⟨"write"⟩⟩ }

/-- Worlds for the comment-fetch outcomes: 404 response and 500 response. -/
def w404 : World := { okWorld with commentResp := .ok ⟨404, some goodComment⟩ }

def w500 : World := { okWorld with commentResp := .ok ⟨500, some goodComment⟩ }

/-- World whose issue is closed while the phrase is present and the
approver has write access. -/
def closedIssueWorld : World := { okWorld with issueResp := .ok ⟨200, some ⟨"closed"⟩⟩ }

/-- World whose issue fetch returns 500 without data. -/
def issue500World : World := { okWorld with issueResp := .ok ⟨500, none⟩ }

/-- World whose comment body lacks the expected approval phrase. -/
def noPhraseWorld : World :=
  { okWorld with commentResp := .ok ⟨200, some ⟨some "@bob says hi", some "carol"⟩⟩ }

/-- World whose permission lookup resolves to `read`. -/
def readPermWorld : World := { okWorld with permResp := .ok ⟨200, some ⟨"read"⟩⟩ }

/-- Two-page roster: `bob` (uppercase in the roster) appears on page 2. -/
def demoPages : List ContribPage :=
  [⟨200, some [⟨some "ALICE"⟩], some "<u>; rel=\"next\""⟩,
    ⟨200, some [⟨some "Bob"⟩], none⟩]

/-- An adversarial server: every page is a healthy 200 response with an
empty contributor list and a well-formed `rel="next"` link. -/
def advPage : ContribPage := ⟨200, some [], some "<https://api.github.com/x?page=2>; rel=\"next\""⟩

def advResp : Nat → ContribPage := fun _ => advPage

/-- The while-true loop of `_isContributor` runs forever against
`advResp`: no fuel bound ever suffices. -/
def advNeverStops : Prop :=
  ∀ (start fuel : Nat), isContributorPages advResp "bob" start fuel = none

/-- A server whose every page lacks a next link. -/
def lastPageResp : Nat → ContribPage := fun _ => ⟨200, some [], none⟩

/-- Recognizer for the `MalformedReferenceURL` outcome of
`extractCommentURL` (the throw on src/index.js line 35). -/
def isMalformedResult : Except ExtractErr ApprovalRef → Bool
  | .error .malformedURL => true
  | _ => false

/-! ### Helper lemmas -/

/-- Once the reference extraction succeeds and the contributor gate is
disabled, `check` continues with the comment-fetch stage. -/
theorem check_after_extract (owner repo prUser prBody : String) (cfg : Config) (w : World)
    (hc : cfg.excludeContribs = false)
    (p : ApprovalRef) (hp : extractCommentURL prBody cfg.referenceStr owner repo = .ok p) :
    check owner repo prUser prBody cfg w = commentStage prUser cfg w := by
  simp [check, hp, hc]

/-! ### Claim theorems -/

/-- C1: the claim says every reference-extraction failure ends in
`ExitClosed` (autoclose comment posted, pull request closed).  The code
instead reports extraction failures through `core.setFailed` and never
invokes `_closePR` on that path (src/index.js lines 182-188): on the
scenario A body of the spec the outcome is `failed`, not `closed`, even with
every API response healthy. -/
theorem C1_extraction_failure_reported_not_closed :
    check "acme" "widgets" "bob" scenarioBodyA DEFAULT_CONFIG okWorld =
      Outcome.failed "No approval comment URL found in the PR body." := rfl

/-- C3: the claim says `force_validate_owner_prs` overrides the owner
short-circuit.  `run` never reads that input: whenever the repository
owner login equals the author login case-insensitively, every check is
skipped for every value of the input (src/index.js lines 262-266). -/
theorem C3_owner_shortcircuit_ignores_force_validate :
    ∀ (fv : String) (w : World),
      run (some ⟨"Alice", "widgets", 1, "alice", some scenarioBodyB⟩)
        ⟨"tok", "", "", "", "", fv⟩ w = .skippedOwner :=
  fun _ _ => rfl

/-- C8 counterexample: a transport-level failure of the explanatory
comment POST makes `_closePR` skip the close PATCH entirely (both calls
sit inside one `try`), refuting "for every outcome of the comment post
(including a transport-level failure), the close request is still
attempted". -/
theorem C8_transport_failure_skips_close :
    (closePR 1 DEFAULT_CONFIG.autocloseMsg "some reason" (.error ()) (.ok ⟨true, 200⟩)).closeAttempted = false := rfl

/-- C8 (amended): whenever the comment POST returns a response — any
status, success or failure — the close PATCH is still attempted, and no
failure in either call is ever raised to the caller; a non-ok POST status
is logged.  (A transport-level throw during the POST instead skips the
close, per the counterexample.) -/
theorem C8_close_best_effort :
    ∀ (prNum : Nat) (msg reason : String) (post : SendRes) (closeRes : Except Unit SendRes),
      ((closePR prNum msg reason (.ok post) closeRes).closeAttempted = true ∧
        (closePR prNum msg reason (.ok post) closeRes).raised = false ∧
        (post.ok = false →
          ("errror posting auto-close comment (status " ++ toString post.status ++ ").") ∈
            (closePR prNum msg reason (.ok post) closeRes).logs)) ∧
      (∀ (postRes closeRes2 : Except Unit SendRes),
        (closePR prNum msg reason postRes closeRes2).raised = false) := by
  intro prNum msg reason post closeRes
  refine ⟨⟨?_, ?_, ?_⟩, ?_⟩
  · cases closeRes <;> rfl
  · cases closeRes <;> rfl
  · intro hpost
    cases closeRes <;> simp [closePR, hpost]
  · intro postRes closeRes2
    cases postRes <;> cases closeRes2 <;> rfl

/-- C8 amended-claim witness at a concrete failing POST status. -/
theorem C8_close_best_effort_witness :
    (closePR 7 "msg" "r" (.ok ⟨false, 500⟩) (.ok ⟨true, 200⟩)).closeAttempted = true ∧
    (closePR 7 "msg" "r" (.ok ⟨false, 500⟩) (.ok ⟨true, 200⟩)).raised = false ∧
    ("errror posting auto-close comment (status 500).") ∈ (closePR 7 "msg" "r" (.ok ⟨false, 500⟩) (.ok ⟨true, 200⟩)).logs := by
  have h := (C8_close_best_effort 7 "msg" "r" ⟨false, 500⟩ (.ok ⟨true, 200⟩)).1
  exact ⟨h.1, h.2.1, h.2.2 rfl⟩

/-- C2: with a well-formed reference extracted and the contributor gate
disabled, a comment-fetch response with status 404 or an empty body yields
the `closed` outcome with the comment-not-found reason (remediation), and
a response with a payload but any other non-200 status yields the `failed`
outcome (no remediation), per src/index.js lines 190-203. -/
theorem C2_comment_fetch_outcomes (owner repo prUser prBody : String) (cfg : Config)
    (hc : cfg.excludeContribs = false)
    (hx : ∃ p, extractCommentURL prBody cfg.referenceStr owner repo = Except.ok p) :
    (∀ (w : World) (r : Resp CommentData), w.commentResp = .ok r →
        (r.status = 404 ∨ r.data = none) →
        check owner repo prUser prBody cfg w = .closed "The referenced PR approval comment was not found.") ∧
    (∀ (w : World) (r : Resp CommentData), w.commentResp = .ok r →
        r.data ≠ none → r.status ≠ 404 → r.status ≠ 200 →
        check owner repo prUser prBody cfg w =
          .failed ("GitHub API returned status " ++ toString r.status ++ " while fetching comment.")) := by
  obtain ⟨p, hp⟩ := hx
  constructor
  · rintro w ⟨st, d⟩ hw hcond
    rw [check_after_extract owner repo prUser prBody cfg w hc p hp]
    rcases hcond with h404 | hnone
    · simp only at h404
      subst h404
      cases d <;> simp [commentStage, hw]
    · simp only at hnone
      subst hnone
      simp [commentStage, hw]
  · rintro w ⟨st, d⟩ hw hd h404 h200
    rw [check_after_extract owner repo prUser prBody cfg w hc p hp]
    cases d with
    | none => exact absurd rfl hd
    | some comment => simp [commentStage, hw, h404, h200]

/-- C2 witness: scenario-B reference with a 404 comment response closes,
and with a 500 comment response fails. -/
theorem C2_comment_fetch_outcomes_witness :
    check "acme" "widgets" "bob" scenarioBodyB DEFAULT_CONFIG w404 = .closed "The referenced PR approval comment was not found." ∧
    check "acme" "widgets" "bob" scenarioBodyB DEFAULT_CONFIG w500 = .failed "GitHub API returned status 500 while fetching comment." := by
  have h := C2_comment_fetch_outcomes "acme" "widgets" "bob" scenarioBodyB DEFAULT_CONFIG rfl ⟨_, rfl⟩
  exact ⟨h.1 w404 ⟨404, some goodComment⟩ rfl (Or.inl rfl),
    h.2 w500 ⟨500, some goodComment⟩ rfl (by simp) (by simp) (by simp)⟩

/-- Unequal first characters make unequal strings. -/
theorem strHead_ne {s t : String} (h : s.data.head? ≠ t.data.head?) : s ≠ t :=
  fun he => h (he ▸ rfl)

/-- The permission-gate closure reason (first character `@`) is never the
phrase-check closure reason (first character `A`). -/
theorem permClosed_ne_phraseClosed (a e : String) :
    ("@" ++ a ++ " does not have write or admin access to this repository.") ≠
      ("Approval string \"" ++ e ++ "\" was not found in the referenced comment.") := by
  apply strHead_ne
  simp [String.data_append]

/-- Past the phrase check, no outcome carries the phrase-check closure
reason: the approver stage fails, approves, or closes with the
permission reason. -/
theorem approverStage_not_phrase_closed (comment : CommentData) (w : World) (e : String) :
    approverStage comment w ≠
      Outcome.closed ("Approval string \"" ++ e ++ "\" was not found in the referenced comment.") := by
  obtain ⟨cb, cl⟩ := comment
  cases cl with
  | none => simp [approverStage]
  | some a =>
    by_cases ha : a = ""
    · simp [approverStage, ha]
    · simp only [approverStage, ha, if_false]
      cases hw : w.permResp with
      | error err => simp [permStage, hw]
      | ok r =>
        cases hd : r.data with
        | none => simp [permStage, hw, hd]
        | some d =>
          by_cases hst : r.status = 200
          · by_cases hall : ALLOWED_PERMISSIONS d.permission
            · simp [permStage, hw, hd, hst, hall]
            · simp [permStage, hw, hd, hst, hall, permClosed_ne_phraseClosed]
          · simp [permStage, hw, hd, hst]

/-- After a 200 comment response with a payload, `check` moves to the
issue stage. -/
theorem commentStage_200 (prUser : String) (cfg : Config) (w : World) (comment : CommentData)
    (hw : w.commentResp = .ok ⟨200, some comment⟩) :
    commentStage prUser cfg w = issueStage prUser cfg comment w := by
  simp [commentStage, hw]

/-- After a 200 issue response with an open issue, `check` moves to the
phrase stage. -/
theorem issueStage_open (prUser : String) (cfg : Config) (comment : CommentData) (w : World)
    (issue : IssueData) (hw : w.issueResp = .ok ⟨200, some issue⟩) (hst : issue.state = "open") :
    issueStage prUser cfg comment w = phraseStage prUser cfg comment w := by
  simp [issueStage, hw, hst]

/-- C6: with a reference extracted and a 200 comment in hand, a
successfully fetched issue (status 200 with data) that is not open closes
the pull request with the approval-issue-closed reason — for every comment
body and every permission response, since the issue-state check
(src/index.js lines 205-214) precedes the phrase and permission checks —
while a non-200 or missing issue response fails the run instead. -/
theorem C6_issue_state_gate (owner repo prUser prBody : String) (cfg : Config)
    (hc : cfg.excludeContribs = false)
    (hx : ∃ p, extractCommentURL prBody cfg.referenceStr owner repo = Except.ok p) :
    (∀ (w : World) (comment : CommentData) (issue : IssueData),
        w.commentResp = .ok ⟨200, some comment⟩ →
        w.issueResp = .ok ⟨200, some issue⟩ → issue.state ≠ "open" →
        check owner repo prUser prBody cfg w = .closed "The referenced PR approval comment issue is closed.") ∧
    (∀ (w : World) (comment : CommentData) (r : Resp IssueData),
        w.commentResp = .ok ⟨200, some comment⟩ →
        w.issueResp = .ok r → (r.status ≠ 200 ∨ r.data = none) →
        check owner repo prUser prBody cfg w =
          .failed ("error fetching issue (status " ++ toString r.status ++ ").")) := by
  obtain ⟨p, hp⟩ := hx
  constructor
  · intro w comment issue hwc hwi hst
    rw [check_after_extract owner repo prUser prBody cfg w hc p hp,
      commentStage_200 prUser cfg w comment hwc]
    simp [issueStage, hwi, hst]
  · rintro w comment ⟨st, d⟩ hwc hwi hcond
    rw [check_after_extract owner repo prUser prBody cfg w hc p hp,
      commentStage_200 prUser cfg w comment hwc]
    rcases hcond with h200 | hnone
    · simp only at h200
      cases d <;> simp [issueStage, hwi, h200]
    · simp only at hnone
      subst hnone
      simp [issueStage, hwi]

/-- C6 witness: a closed issue closes the pull request even though the
phrase matches and the approver has write permission; a failed issue
fetch fails the run. -/
theorem C6_issue_state_gate_witness :
    check "acme" "widgets" "bob" scenarioBodyB DEFAULT_CONFIG closedIssueWorld =
      .closed "The referenced PR approval comment issue is closed." ∧
    check "acme" "widgets" "bob" scenarioBodyB DEFAULT_CONFIG issue500World =
      .failed "error fetching issue (status 500)." := by
  have h := C6_issue_state_gate "acme" "widgets" "bob" scenarioBodyB DEFAULT_CONFIG rfl ⟨_, rfl⟩
  exact ⟨h.1 closedIssueWorld goodComment ⟨"closed"⟩ rfl rfl (by simp),
    h.2 issue500World goodComment ⟨500, none⟩ rfl rfl (Or.inr rfl)⟩

/-- C4: the expected phrase is the approval template with `{user}`
replaced by `@` + author login; under a 200 comment and an open 200
issue, the phrase-check closure occurs exactly when the comment body does
not contain the expected phrase as a (case-sensitive) substring
(src/index.js lines 216-220); and the concrete examples of the spec:
`{user} PR approved` with author `alice` expects exactly
`@alice PR approved`, its superstring `@alice PR approved!` matches, and
the case-different `@alice pr approved` does not. -/
theorem C4_approval_phrase (owner repo prUser prBody b : String) (cfg : Config)
    (comment : CommentData)
    (hc : cfg.excludeContribs = false)
    (hx : ∃ p, extractCommentURL prBody cfg.referenceStr owner repo = Except.ok p)
    (hbody : comment.body = some b) :
    (∀ (w : World) (issue : IssueData),
        w.commentResp = .ok ⟨200, some comment⟩ →
        w.issueResp = .ok ⟨200, some issue⟩ → issue.state = "open" →
        (check owner repo prUser prBody cfg w =
            .closed ("Approval string \"" ++ replaceFirst cfg.approvalStr "{user}" ("@" ++ prUser) ++ "\" was not found in the referenced comment.") ↔
          containsSubstr b (replaceFirst cfg.approvalStr "{user}" ("@" ++ prUser)) = false)) ∧
    replaceFirst "{user} PR approved" "{user}" "@alice" = "@alice PR approved" ∧
    containsSubstr "@alice PR approved!" "@alice PR approved" = true ∧
    containsSubstr "@alice pr approved" "@alice PR approved" = false := by
  obtain ⟨p, hp⟩ := hx
  refine ⟨?_, rfl, rfl, rfl⟩
  intro w issue hwc hwi hst
  rw [check_after_extract owner repo prUser prBody cfg w hc p hp,
    commentStage_200 prUser cfg w comment hwc,
    issueStage_open prUser cfg comment w issue hwi hst]
  cases hcont : containsSubstr b (replaceFirst cfg.approvalStr "{user}" ("@" ++ prUser)) with
  | true =>
    simp [phraseStage, hbody, hcont, approverStage_not_phrase_closed]
  | false =>
    simp [phraseStage, hbody, hcont]

/-- C4 witness: with the default template and author `bob`, a comment
body without `@bob PR approved` closes the pull request with the
phrase-not-found reason. -/
theorem C4_approval_phrase_witness :
    check "acme" "widgets" "bob" scenarioBodyB DEFAULT_CONFIG noPhraseWorld =
      .closed "Approval string \"@bob PR approved\" was not found in the referenced comment." := by
  have h := C4_approval_phrase "acme" "widgets" "bob" scenarioBodyB "@bob says hi"
    DEFAULT_CONFIG ⟨some "@bob says hi", some "carol"⟩ rfl ⟨_, rfl⟩ rfl
  exact (h.1 noPhraseWorld ⟨"open"⟩ rfl rfl rfl).mpr rfl

/-- C5: once every earlier step has passed (reference extracted, comment
fetched with status 200, parent issue open, phrase present, approver
identified) and the permission lookup returned 200 with data, the outcome
is `approved` exactly when the resolved permission level satisfies
`ALLOWED_PERMISSIONS` — i.e. is `write` or `admin` (src/index.js
lines 15, 227-237) — and every other level closes the pull request with
the insufficient-role reason. -/
theorem C5_permission_gate (owner repo prUser prBody b approver : String) (cfg : Config)
    (comment : CommentData)
    (hc : cfg.excludeContribs = false)
    (hx : ∃ p, extractCommentURL prBody cfg.referenceStr owner repo = Except.ok p)
    (hbody : comment.body = some b)
    (hlogin : comment.userLogin = some approver) (hne : approver ≠ "")
    (hphrase : containsSubstr b (replaceFirst cfg.approvalStr "{user}" ("@" ++ prUser)) = true) :
    ∀ (w : World) (issue : IssueData) (pd : PermData),
      w.commentResp = .ok ⟨200, some comment⟩ →
      w.issueResp = .ok ⟨200, some issue⟩ → issue.state = "open" →
      w.permResp = .ok ⟨200, some pd⟩ →
      ((check owner repo prUser prBody cfg w = .approved ↔
          ALLOWED_PERMISSIONS pd.permission = true) ∧
        (ALLOWED_PERMISSIONS pd.permission = false →
          check owner repo prUser prBody cfg w =
            .closed ("@" ++ approver ++ " does not have write or admin access to this repository."))) := by
  obtain ⟨p, hp⟩ := hx
  intro w issue pd hwc hwi hst hwp
  rw [check_after_extract owner repo prUser prBody cfg w hc p hp,
    commentStage_200 prUser cfg w comment hwc,
    issueStage_open prUser cfg comment w issue hwi hst]
  have hred : phraseStage prUser cfg comment w = permStage approver w := by
    simp [phraseStage, hbody, hphrase, approverStage, hlogin, hne]
  rw [hred]
  cases hall : ALLOWED_PERMISSIONS pd.permission with
  | true => simp [permStage, hwp, hall]
  | false => simp [permStage, hwp, hall]

/-- C5 witness: scenario B (`write` approver `carol`) is approved, while
the same run with permission `read` closes with the insufficient-role
reason. -/
theorem C5_permission_gate_witness :
    check "acme" "widgets" "bob" scenarioBodyB DEFAULT_CONFIG okWorld = .approved ∧
    check "acme" "widgets" "bob" scenarioBodyB DEFAULT_CONFIG readPermWorld =
      .closed "@carol does not have write or admin access to this repository." := by
  have h1 := C5_permission_gate "acme" "widgets" "bob" scenarioBodyB "@bob PR approved" "carol"
    DEFAULT_CONFIG goodComment rfl ⟨_, rfl⟩ rfl rfl (by simp) rfl
    okWorld ⟨"open"⟩ ⟨"write"⟩ rfl rfl rfl rfl
  have h2 := C5_permission_gate "acme" "widgets" "bob" scenarioBodyB "@bob PR approved" "carol"
    DEFAULT_CONFIG goodComment rfl ⟨_, rfl⟩ rfl rfl (by simp) rfl
    readPermWorld ⟨"open"⟩ ⟨"read"⟩ rfl rfl rfl rfl
  exact ⟨h1.1.mpr rfl, h2.2 rfl⟩

/-- The per-page scan finds exactly the case-insensitive login matches of
the author (who arrives lowercased from `run`). -/
theorem pageMatch_iff (prUser : String) (h : lowerStr prUser = prUser) (p : ContribPage) :
    pageMatch prUser p = true ↔
      ∃ c ∈ p.data.getD [], ∃ l, c.login = some l ∧ lowerStr l = lowerStr prUser := by
  unfold pageMatch
  rw [List.any_eq_true]
  constructor
  · rintro ⟨c, hc, hb⟩
    refine ⟨c, hc, ?_⟩
    cases hl : c.login with
    | none => rw [hl] at hb; simp at hb
    | some l =>
      rw [hl] at hb
      simp only [Option.map_some', beq_iff_eq, Option.some.injEq] at hb
      exact ⟨l, rfl, by rw [hb, h]⟩
  · rintro ⟨c, hc, l, hl, he⟩
    refine ⟨c, hc, ?_⟩
    rw [h] at he
    simp [hl, he]

/-- Characterization of `_isContributor` returning true: some page holds a
match, and every earlier page was scanned in full (good, matchless, and
advertising a next page). -/
theorem isContributor_true_iff (u : String) (pages : List ContribPage) :
    isContributor u pages = true ↔
      ∃ (k : Nat) (p : ContribPage), pages[k]? = some p ∧
        (∀ (j : Nat) (q : ContribPage), j < k → pages[j]? = some q → advancingPage u q = true) ∧
        pageGood p = true ∧ pageMatch u p = true := by
  induction pages with
  | nil => simp [isContributor]
  | cons p0 rest ih =>
    cases hg : pageGood p0 with
    | false =>
      have hL : isContributor u (p0 :: rest) = false := by simp [isContributor, hg]
      rw [hL]
      simp only [Bool.false_eq_true, false_iff]
      rintro ⟨k, p, hk, hadv, hgp, hmp⟩
      cases k with
      | zero =>
        simp only [List.getElem?_cons_zero, Option.some.injEq] at hk
        subst hk
        rw [hg] at hgp
        exact Bool.false_ne_true hgp
      | succ k' =>
        have h0 := hadv 0 p0 (Nat.succ_pos k') (by simp)
        simp [advancingPage, hg] at h0
    | true =>
      cases hm : pageMatch u p0 with
      | true =>
        have hL : isContributor u (p0 :: rest) = true := by simp [isContributor, hg, hm]
        rw [hL]
        simp only [true_iff]
        exact ⟨0, p0, by simp, fun j q hj _ => absurd hj (Nat.not_lt_zero j), hg, hm⟩
      | false =>
        cases hn : hasNextLink p0 with
        | false =>
          have hL : isContributor u (p0 :: rest) = false := by simp [isContributor, hg, hm, hn]
          rw [hL]
          simp only [Bool.false_eq_true, false_iff]
          rintro ⟨k, p, hk, hadv, hgp, hmp⟩
          cases k with
          | zero =>
            simp only [List.getElem?_cons_zero, Option.some.injEq] at hk
            subst hk
            rw [hm] at hmp
            exact Bool.false_ne_true hmp
          | succ k' =>
            have h0 := hadv 0 p0 (Nat.succ_pos k') (by simp)
            simp [advancingPage, hn] at h0
        | true =>
          have hL : isContributor u (p0 :: rest) = isContributor u rest := by
            simp [isContributor, hg, hm, hn]
          rw [hL, ih]
          constructor
          · rintro ⟨k, p, hk, hadv, hgp, hmp⟩
            refine ⟨k + 1, p, by simpa using hk, ?_, hgp, hmp⟩
            rintro j q hj hq
            cases j with
            | zero =>
              simp only [List.getElem?_cons_zero, Option.some.injEq] at hq
              subst hq
              simp [advancingPage, hg, hm, hn]
            | succ j' =>
              exact hadv j' q (Nat.lt_of_succ_lt_succ hj) (by simpa using hq)
          · rintro ⟨k, p, hk, hadv, hgp, hmp⟩
            cases k with
            | zero =>
              simp only [List.getElem?_cons_zero, Option.some.injEq] at hk
              subst hk
              rw [hm] at hmp
              exact absurd hmp Bool.false_ne_true
            | succ k' =>
              refine ⟨k', p, by simpa using hk, ?_, hgp, hmp⟩
              rintro j q hj hq
              exact hadv (j + 1) q (Nat.succ_lt_succ hj) (by simpa using hq)

/-- A non-200 or payload-free page reached by the scan makes
`_isContributor` return false. -/
theorem isContributor_false_of_bad (u : String) (pages : List ContribPage) (k : Nat)
    (p : ContribPage) (hk : pages[k]? = some p)
    (hadv : ∀ (j : Nat) (q : ContribPage), j < k → pages[j]? = some q → advancingPage u q = true)
    (hbad : pageGood p = false) : isContributor u pages = false := by
  cases hI : isContributor u pages with
  | false => rfl
  | true =>
    obtain ⟨k', p', hk', hadv', hg', hm'⟩ := (isContributor_true_iff u pages).mp hI
    rcases Nat.lt_trichotomy k' k with hlt | heq | hgt
    · have h0 := hadv k' p' hlt hk'
      simp only [advancingPage, Bool.and_eq_true, Bool.not_eq_true'] at h0
      rw [hm'] at h0
      exact Bool.noConfusion h0.1.2
    · subst heq
      rw [hk] at hk'
      injection hk' with he
      subst he
      rw [hbad] at hg'
      exact absurd hg' Bool.false_ne_true
    · have h0 := hadv' k p hgt hk
      simp only [advancingPage, Bool.and_eq_true, Bool.not_eq_true'] at h0
      rw [hbad] at h0
      exact absurd h0.1.1 Bool.false_ne_true

/-- C7: over any finite sequence of contributor pages, `_isContributor`
returns true exactly when some scanned page (all earlier pages good,
matchless, with a next-page link) contains a login case-insensitively
equal to the author login; a page with a non-200 status or missing payload
that the scan reaches makes it return false (advisory degradation,
src/index.js lines 145-163); and a page matches exactly when some listed
login lowercases to the author login. -/
theorem C7_contributor_gate (prUser : String) (h : lowerStr prUser = prUser)
    (pages : List ContribPage) :
    (isContributor prUser pages = true ↔
      ∃ (k : Nat) (p : ContribPage), pages[k]? = some p ∧
        (∀ (j : Nat) (q : ContribPage), j < k → pages[j]? = some q → advancingPage prUser q = true) ∧
        pageGood p = true ∧ pageMatch prUser p = true) ∧
    (∀ (k : Nat) (p : ContribPage), pages[k]? = some p →
      (∀ (j : Nat) (q : ContribPage), j < k → pages[j]? = some q → advancingPage prUser q = true) →
      pageGood p = false → isContributor prUser pages = false) ∧
    (∀ p : ContribPage, pageMatch prUser p = true ↔
      ∃ c ∈ p.data.getD [], ∃ l, c.login = some l ∧ lowerStr l = lowerStr prUser) :=
  ⟨isContributor_true_iff prUser pages,
    fun k p hk hadv hbad => isContributor_false_of_bad prUser pages k p hk hadv hbad,
    fun p => pageMatch_iff prUser h p⟩

/-- C7 witness: the author found (case-insensitively) on page 2 of the
two-page roster makes the gate return true. -/
theorem C7_contributor_gate_witness : isContributor "bob" demoPages = true := by
  have h := (C7_contributor_gate "bob" rfl demoPages).1
  refine h.mpr ⟨1, ⟨200, some [⟨some "Bob"⟩], none⟩, rfl, ?_, rfl, rfl⟩
  rintro j q hj hq
  interval_cases j
  simp only [demoPages, List.getElem?_cons_zero, Option.some.injEq] at hq
  subst hq
  rfl

/-- C9 counterexample: the pagination loop does not terminate for every
sequence of page responses — a server that advertises a next-page
relation on every matchless page (well-formed pagination metadata) keeps
`_isContributor` looping forever (src/index.js lines 146-162). -/
theorem C9_adversarial_nontermination : advNeverStops := by
  intro start fuel
  induction fuel generalizing start with
  | zero => rfl
  | succ n ih => exact ih (start + 1)

/-- A stopping page response halts the loop within one step. -/
theorem isContributorPages_stops (resp : Nat → ContribPage) (u : String) (page fuel : Nat)
    (h : stopsPage u (resp page) = true) :
    (isContributorPages resp u page (fuel + 1)).isSome = true := by
  unfold stopsPage at h
  cases hg : pageGood (resp page) with
  | false => simp [isContributorPages, hg]
  | true =>
    cases hm : pageMatch u (resp page) with
    | true => simp [isContributorPages, hg, hm]
    | false =>
      cases hn : hasNextLink (resp page) with
      | false => simp [isContributorPages, hg, hm, hn]
      | true => rw [hg, hm, hn] at h; simp at h

/-- On a non-stopping page the loop advances to the next page index. -/
theorem isContributorPages_step (resp : Nat → ContribPage) (u : String) (page fuel : Nat)
    (h : stopsPage u (resp page) = false) :
    isContributorPages resp u page (fuel + 1) = isContributorPages resp u (page + 1) fuel := by
  unfold stopsPage at h
  cases hg : pageGood (resp page) with
  | false => rw [hg] at h; simp at h
  | true =>
    cases hm : pageMatch u (resp page) with
    | true => rw [hg, hm] at h; simp at h
    | false =>
      cases hn : hasNextLink (resp page) with
      | false => rw [hg, hm, hn] at h; simp at h
      | true => simp [isContributorPages, hg, hm, hn]

/-- C9 (amended): the loop advances only across pages that are good,
matchless, and advertise `rel="next"`; a page whose link metadata is
missing or malformed (no `rel="next"` substring) stops it, as does any
non-200/missing-data page or a login match.  Hence the loop terminates
whenever some page at or beyond the start index stops it — in particular
for every finite roster, whose last page carries no next link — but not
unconditionally (see the adversarial counterexample). -/
theorem C9_pagination_termination (resp : Nat → ContribPage) (u : String) (start : Nat)
    (h : ∃ n, start ≤ n ∧ stopsPage u (resp n) = true) :
    (∃ fuel, (isContributorPages resp u start fuel).isSome = true) ∧
    (∀ (page fuel : Nat), hasNextLink (resp page) = false →
      (isContributorPages resp u page (fuel + 1)).isSome = true) := by
  constructor
  · obtain ⟨n, hge, hstop⟩ := h
    obtain ⟨d, rfl⟩ := Nat.exists_eq_add_of_le hge
    clear hge
    revert hstop
    induction d generalizing start with
    | zero =>
      intro hstop
      exact ⟨1, isContributorPages_stops resp u start 0 (by simpa using hstop)⟩
    | succ d ih =>
      intro hstop
      cases hstop0 : stopsPage u (resp start) with
      | true => exact ⟨1, isContributorPages_stops resp u start 0 hstop0⟩
      | false =>
        obtain ⟨fuel, hfuel⟩ := ih (start + 1)
          (by
            have he : start + 1 + d = start + (d + 1) := by omega
            rw [he]
            exact hstop)
        exact ⟨fuel + 1, by
          rw [isContributorPages_step resp u start fuel hstop0]
          exact hfuel⟩
  · intro page fuel hnolink
    apply isContributorPages_stops
    simp [stopsPage, hnolink]

/-- C9 witness: against a server whose page 1 advertises no next page,
the loop halts within some fuel bound. -/
theorem C9_pagination_termination_witness :
    ∃ fuel, (isContributorPages lastPageResp "bob" 1 fuel).isSome = true :=
  (C9_pagination_termination lastPageResp "bob" 1 ⟨1, Nat.le_refl 1, rfl⟩).1

/-! ### C10: the malformed-URL branch is unreachable -/

/-- Stripping a literal prefix from that prefix followed by anything
succeeds with the remainder. -/
theorem stripPrefixCL_append (p s : List Char) : stripPrefixCL p (p ++ s) = some s := by
  induction p with
  | nil => rfl
  | cons c cs ih => simp [stripPrefixCL, ih]

/-- Lemma: `takeWhile`/`dropWhile` on a satisfying run followed by a failing
character split exactly at that character. -/
theorem takeWhile_middle (f : Char → Bool) (xs : List Char) (y : Char) (ys : List Char)
    (h1 : ∀ a ∈ xs, f a = true) (h2 : f y = false) :
    (xs ++ y :: ys).takeWhile f = xs ∧ (xs ++ y :: ys).dropWhile f = y :: ys := by
  induction xs with
  | nil => simp [List.takeWhile_cons, List.dropWhile_cons, h2]
  | cons a xs ih =>
    have ha : f a = true := h1 a (List.mem_cons_self a xs)
    have ih' := ih (fun b hb => h1 b (List.mem_cons_of_mem a hb))
    simp [List.takeWhile_cons, List.dropWhile_cons, ha, ih'.1, ih'.2]

/-- Lemma: `takeWhile`/`dropWhile` on an entirely satisfying list. -/
theorem takeWhile_all (f : Char → Bool) (xs : List Char) (h : ∀ a ∈ xs, f a = true) :
    xs.takeWhile f = xs ∧ xs.dropWhile f = [] := by
  induction xs with
  | nil => simp
  | cons a xs ih =>
    have ha : f a = true := h a (List.mem_cons_self a xs)
    have ih' := ih (fun b hb => h b (List.mem_cons_of_mem a hb))
    simp [List.takeWhile_cons, List.dropWhile_cons, ha, ih'.1, ih'.2]

/-- Every capture produced by a successful unanchored match consists of a
nonempty slash-free owner and repo and nonempty digit runs. -/
theorem matchURL_shape (s : List Char) (u : URLParts) (rest : List Char)
    (hm : matchURL s = some (u, rest)) :
    u.uOwner ≠ [] ∧ (∀ a ∈ u.uOwner, notSlash a = true) ∧
    u.uRepo ≠ [] ∧ (∀ a ∈ u.uRepo, notSlash a = true) ∧
    u.uIssue ≠ [] ∧ (∀ a ∈ u.uIssue, Char.isDigit a = true) ∧
    u.uComment ≠ [] ∧ (∀ a ∈ u.uComment, Char.isDigit a = true) := by
  unfold matchURL at hm
  cases h1 : stripPrefixCL HTTPS_GITHUB s with
  | none => rw [h1] at hm; exact absurd hm (by simp)
  | some s1 =>
    rw [h1] at hm
    simp only [] at hm
    cases hoE : (s1.takeWhile notSlash).isEmpty with
    | true => rw [hoE] at hm; exact absurd hm (by simp)
    | false =>
      rw [hoE] at hm
      simp only [Bool.false_eq_true, if_false] at hm
      cases h2 : stripPrefixCL ['/'] (s1.dropWhile notSlash) with
      | none => rw [h2] at hm; exact absurd hm (by simp)
      | some s2 =>
        rw [h2] at hm
        simp only [] at hm
        cases hrE : (s2.takeWhile notSlash).isEmpty with
        | true => rw [hrE] at hm; exact absurd hm (by simp)
        | false =>
          rw [hrE] at hm
          simp only [Bool.false_eq_true, if_false] at hm
          cases h3 : stripPrefixCL ('/' :: ISSUES_SEG) (s2.dropWhile notSlash) with
          | none => rw [h3] at hm; exact absurd hm (by simp)
          | some s4 =>
            rw [h3] at hm
            simp only [] at hm
            cases hiE : (s4.takeWhile Char.isDigit).isEmpty with
            | true => rw [hiE] at hm; exact absurd hm (by simp)
            | false =>
              rw [hiE] at hm
              simp only [Bool.false_eq_true, if_false] at hm
              cases h4 : stripPrefixCL COMMENT_ANCHOR (s4.dropWhile Char.isDigit) with
              | none => rw [h4] at hm; exact absurd hm (by simp)
              | some s5 =>
                rw [h4] at hm
                simp only [] at hm
                cases hcE : (s5.takeWhile Char.isDigit).isEmpty with
                | true => rw [hcE] at hm; exact absurd hm (by simp)
                | false =>
                  rw [hcE] at hm
                  simp only [Bool.false_eq_true, if_false, Option.some.injEq, Prod.mk.injEq] at hm
                  obtain ⟨hu, _⟩ := hm
                  subst hu
                  dsimp only
                  refine ⟨?_, ?_, ?_, ?_, ?_, ?_, ?_, ?_⟩
                  · intro h0; rw [h0] at hoE; exact Bool.noConfusion hoE
                  · exact fun a ha => List.mem_takeWhile_imp ha
                  · intro h0; rw [h0] at hrE; exact Bool.noConfusion hrE
                  · exact fun a ha => List.mem_takeWhile_imp ha
                  · intro h0; rw [h0] at hiE; exact Bool.noConfusion hiE
                  · exact fun a ha => List.mem_takeWhile_imp ha
                  · intro h0; rw [h0] at hcE; exact Bool.noConfusion hcE
                  · exact fun a ha => List.mem_takeWhile_imp ha

/-- Re-running the unanchored matcher on a reassembled capture with the
shape invariants consumes the whole capture and returns the same groups. -/
theorem matchURL_reassemble (o r i c : List Char)
    (ho : o ≠ []) (ho2 : ∀ a ∈ o, notSlash a = true)
    (hr : r ≠ []) (hr2 : ∀ a ∈ r, notSlash a = true)
    (hi : i ≠ []) (hi2 : ∀ a ∈ i, Char.isDigit a = true)
    (hc : c ≠ []) (hc2 : ∀ a ∈ c, Char.isDigit a = true) :
    matchURL (reassembleURL ⟨o, r, i, c⟩) = some (⟨o, r, i, c⟩, []) := by
  have hoE : o.isEmpty = false := by cases o with | nil => exact absurd rfl ho | cons _ _ => rfl
  have hrE : r.isEmpty = false := by cases r with | nil => exact absurd rfl hr | cons _ _ => rfl
  have hiE : i.isEmpty = false := by cases i with | nil => exact absurd rfl hi | cons _ _ => rfl
  have hcE : c.isEmpty = false := by cases c with | nil => exact absurd rfl hc | cons _ _ => rfl
  have e0 : reassembleURL ⟨o, r, i, c⟩ =
      HTTPS_GITHUB ++ (o ++ '/' :: (r ++ '/' :: (ISSUES_SEG ++ (i ++ (COMMENT_ANCHOR ++ c))))) := by
    simp [reassembleURL, List.append_assoc]
  have hsl : notSlash '/' = false := rfl
  have hsh : Char.isDigit '#' = false := rfl
  have ht1 := takeWhile_middle notSlash o '/'
    (r ++ '/' :: (ISSUES_SEG ++ (i ++ (COMMENT_ANCHOR ++ c)))) ho2 hsl
  have hs1 : stripPrefixCL ['/']
      ('/' :: (r ++ '/' :: (ISSUES_SEG ++ (i ++ (COMMENT_ANCHOR ++ c))))) =
      some (r ++ '/' :: (ISSUES_SEG ++ (i ++ (COMMENT_ANCHOR ++ c)))) := by
    simp [stripPrefixCL]
  have ht2 := takeWhile_middle notSlash r '/' (ISSUES_SEG ++ (i ++ (COMMENT_ANCHOR ++ c))) hr2 hsl
  have hs2 : stripPrefixCL ('/' :: ISSUES_SEG)
      ('/' :: (ISSUES_SEG ++ (i ++ (COMMENT_ANCHOR ++ c)))) =
      some (i ++ (COMMENT_ANCHOR ++ c)) := by
    simp [stripPrefixCL, stripPrefixCL_append]
  have hAC : COMMENT_ANCHOR ++ c = '#' :: ("issuecomment-".toList ++ c) := rfl
  have ht3a := takeWhile_middle Char.isDigit i '#' ("issuecomment-".toList ++ c) hi2 hsh
  have ht3 : (i ++ (COMMENT_ANCHOR ++ c)).takeWhile Char.isDigit = i := by
    rw [hAC]; exact ht3a.1
  have hd3 : (i ++ (COMMENT_ANCHOR ++ c)).dropWhile Char.isDigit = COMMENT_ANCHOR ++ c := by
    rw [hAC]; exact ht3a.2
  have hs3 : stripPrefixCL COMMENT_ANCHOR (COMMENT_ANCHOR ++ c) = some c :=
    stripPrefixCL_append COMMENT_ANCHOR c
  have ht4 := takeWhile_all Char.isDigit c hc2
  rw [e0]
  unfold matchURL
  rw [stripPrefixCL_append]
  simp only [ht1.1, ht1.2, hoE, Bool.false_eq_true, if_false, hs1, ht2.1, ht2.2, hrE, hs2,
    ht3, hd3, hiE, hs3, ht4.1, ht4.2, hcE]

/-- Any capture of the unanchored matcher re-parses in full against the
anchored `RE_COMMENT_URL` and yields the same groups. -/
theorem parseCommentURL_reassemble (s : List Char) (u : URLParts) (rest : List Char)
    (hm : matchURL s = some (u, rest)) :
    parseCommentURL (reassembleURL u) = some u := by
  obtain ⟨ho, ho2, hr, hr2, hi, hi2, hc, hc2⟩ := matchURL_shape s u rest hm
  obtain ⟨o, r, i, c⟩ := u
  unfold parseCommentURL
  rw [matchURL_reassemble o r i c ho ho2 hr hr2 hi hi2 hc hc2]

/-- A successful template attempt contains a successful URL match. -/
theorem tryMatchAt_some (p0 p1 s : List Char) (u : URLParts)
    (h : tryMatchAt p0 p1 s = some u) :
    ∃ s1 rest, matchURL s1 = some (u, rest) := by
  unfold tryMatchAt at h
  cases h1 : stripPrefixCL p0 s with
  | none => rw [h1] at h; exact absurd h (by simp)
  | some s1 =>
    rw [h1] at h
    simp only [] at h
    cases h2 : matchURL s1 with
    | none => rw [h2] at h; exact absurd h (by simp)
    | some ur =>
      obtain ⟨u', rest⟩ := ur
      rw [h2] at h
      simp only [] at h
      cases h3 : stripPrefixCL p1 rest with
      | none => rw [h3] at h; exact absurd h (by simp)
      | some _ =>
        rw [h3] at h
        simp only [Option.some.injEq] at h
        subst h
        exact ⟨s1, rest, h2⟩

/-- A successful body search contains a successful URL match. -/
theorem findFirstMatch_some (p0 p1 s : List Char) (u : URLParts)
    (h : findFirstMatch p0 p1 s = some u) :
    ∃ s1 rest, matchURL s1 = some (u, rest) := by
  induction s with
  | nil =>
    unfold findFirstMatch at h
    exact tryMatchAt_some p0 p1 [] u h
  | cons ch tail ih =>
    unfold findFirstMatch at h
    cases h1 : tryMatchAt p0 p1 (ch :: tail) with
    | some u' =>
      rw [h1] at h
      simp only [Option.some.injEq] at h
      subst h
      exact tryMatchAt_some p0 p1 (ch :: tail) _ h1
    | none =>
      rw [h1] at h
      exact ih h

/-- C10: whenever phase 1 of `extractCommentURL` finds a template match,
the captured URL always re-parses against the anchored `RE_COMMENT_URL`,
so the malformed-URL branch is dead code: no body/template/owner/repo
input ever produces the `MalformedReferenceURL` error. -/
theorem C10_malformed_branch_unreachable (prBody referenceStr owner repo : String) :
    isMalformedResult (extractCommentURL prBody referenceStr owner repo) = false := by
  unfold extractCommentURL
  cases hsp : splitParts URL_PLACEHOLDER referenceStr.toList with
  | mk p0 p1opt =>
    cases p1opt with
    | none => rfl
    | some p1 =>
      cases hf : findFirstMatch p0 p1 prBody.toList with
      | none =>
        have hf' : findFirstMatch p0 p1 prBody.data = none := hf
        simp [hf, hf', isMalformedResult]
      | some u =>
        obtain ⟨s1, rest, hm⟩ := findFirstMatch_some p0 p1 prBody.toList u hf
        have hre := parseCommentURL_reassemble s1 u rest hm
        simp only [hf, hre]
        split <;> rfl
